import Mathlib

/-!
Shallow embedding of the request-handler layer of the server-escuela
repository: three Express/MySQL variants. Variant V0 is the basic users
API, variant V1 the hardened users API with a health endpoint, and the
resources API lives in server.js. Handlers are modelled as pure functions
from a request, a store state and a storage-failure oracle to a response
and a new store state. The failure oracle gives, for each storage call
made by one handler invocation (numbered from 0), whether that call
throws; any throw lands in the handler catch block, as in the source.
-/

namespace Escuela

/-- Row of the users table: id and name columns. -/
structure UserRow where
  id : Int
  name : String
deriving DecidableEq, Repr

/-- Row of the resources table, as selected by the handlers. -/
structure ResourceRow where
  id : Int
  title : String
  description : String
  url : String
  type : String
  platform : String
  created_at : Nat
deriving DecidableEq, Repr

/-- State of the users table: rows plus the next auto-increment id. -/
structure UsersDb where
  rows : List UserRow
  nextId : Int
deriving DecidableEq, Repr

/-- State of the resources table: rows, next auto-increment id, and the
clock value the store assigns to created_at on insert. -/
structure ResourcesDb where
  rows : List ResourceRow
  nextId : Int
  now : Nat
deriving DecidableEq, Repr

/-- Request shape for the users endpoints: the id may come from the path
parameter, the query string or the JSON body, and the body may carry a
name field. A `none` field is absent (undefined in the source). -/
structure Request where
  paramsId : Option String := none
  queryId : Option String := none
  bodyId : Option String := none
  bodyName : Option String := none
deriving DecidableEq, Repr

/-- Request body for POST /api/resources. -/
structure ResourceReq where
  title : Option String := none
  description : Option String := none
  url : Option String := none
  type : Option String := none
  platform : Option String := none
deriving DecidableEq, Repr

/-- JSON response body shapes produced by the handlers. -/
inductive Body where
  | msg (message : String)
  | err (error : String)
  | userList (rows : List UserRow)
  | resourceList (rows : List ResourceRow)
  | resource (r : ResourceRow)
  | successErr (success : Bool) (error : String)
  | successMsg (success : Bool) (message : String)
  | successUser (success : Bool) (message : String) (user : UserRow)
  | okBody (ok : Bool)
deriving DecidableEq, Repr

/-- HTTP response: status code and JSON body. -/
structure Response where
  status : Nat
  body : Body
deriving DecidableEq, Repr

/-- JS expression `x || ""` for an optional string x: undefined and the
empty string are falsy, so both collapse to the empty string. -/
def jsOrEmpty : Option String → String
  | none => ""
  | some s => s

/-- JS falsiness of an optional string value: undefined and the empty
string are falsy, every other string (whitespace included) is truthy. -/
def jsFalsy : Option String → Bool
  | none => true
  | some s => s == ""

/-- JS expression `x || d` for an optional string x and a truthy default
d: undefined and the empty string fall back to the default. -/
def jsOr (v : Option String) (d : String) : String :=
  match v with
  | none => d
  | some s => if s == "" then d else s

/-- Model of the JS `s.trim()`: remove whitespace from both ends of the
string, written over the character list so that it evaluates by
reduction. -/
def jsTrim (s : String) : String :=
  ⟨(((s.data.dropWhile (fun c => c.isWhitespace)).reverse.dropWhile
      (fun c => c.isWhitespace)).reverse)⟩

/-- Value of a list of decimal digit characters, most significant first. -/
def digitsVal (ds : List Char) : Nat :=
  ds.foldl (fun a c => 10 * a + (c.toNat - '0'.toNat)) 0

/-- Optional leading sign, as consumed by parseInt. -/
def stripSign (cs : List Char) : Int × List Char :=
  match cs with
  | c :: t => if c = '+' then (1, t) else if c = '-' then (-1, t) else (1, cs)
  | [] => (1, [])

/-- Model of the JS `parseInt(s, 10)`: skip leading whitespace, consume an
optional sign, then the longest run of decimal digits; `none` models NaN
(no digits found). -/
def jsParseInt (s : String) : Option Int :=
  let cs := s.data.dropWhile (fun c => c.isWhitespace)
  let sr := stripSign cs
  let ds := sr.2.takeWhile (fun c => c.isDigit)
  if ds.isEmpty then none else some (sr.1 * (digitsVal ds : Int))

/-- The getId helper shared by both users variants:
`req.params.id ?? req.query.id ?? req.body?.id` then `parseInt(raw, 10)`,
returning null (`none`) unless the result is an integer. When all three
locations are absent, `parseInt(undefined, 10)` is NaN, hence `none`. -/
def getId (req : Request) : Option Int :=
  match req.paramsId <|> req.queryId <|> req.bodyId with
  | none => none
  | some raw => jsParseInt raw

/-- Insertion step for a descending sort by a boolean key comparison. -/
def insertBy (ge : α → α → Bool) (x : α) : List α → List α
  | [] => [x]
  | y :: ys => if ge y x then y :: insertBy ge x ys else x :: y :: ys

/-- Insertion sort putting the largest keys first, modelling ORDER BY
... DESC on the select statements. -/
def sortDescBy (ge : α → α → Bool) : List α → List α
  | [] => []
  | x :: xs => insertBy ge x (sortDescBy ge xs)

/-- Number of rows the users table holds for a given id; this is the
affectedRows count of an UPDATE or DELETE statement matching that id. -/
def usersAffected (rows : List UserRow) (id : Int) : Nat :=
  (rows.filter (fun r => r.id == id)).length

/-- GET /users of the basic variant V0: on success the rows ordered by id
descending, on storage failure a 500 whose error string is the literal
prefix concatenated with the stringified error detail
(`"Error de conexión: " + (err.message || err)` in the source). The
`err` argument carries that stringified detail when the query throws. -/
def listUsersV0 (db : UsersDb) (err : Option String) : Response :=
  match err with
  | some m => { status := 500, body := .err ("Error de conexión: " ++ m) }
  | none => { status := 200, body := .userList (sortDescBy (fun a b => a.id ≥ b.id) db.rows) }

/-- GET /users of the hardened variant V1: generic 500 on failure. -/
def listUsersV1 (db : UsersDb) (fail : Bool) : Response :=
  if fail then { status := 500, body := .err "Error interno" }
  else { status := 200, body := .userList (sortDescBy (fun a b => a.id ≥ b.id) db.rows) }

/-- POST /users of variant V1: trim the body name, reject the empty
result with 400 before any storage call, otherwise insert; a successful
INSERT reports affectedRows = 1, giving the success acknowledgement. -/
def postUsers (db : UsersDb) (f : Nat → Bool) (req : Request) : Response × UsersDb :=
  let name := jsTrim (jsOrEmpty req.bodyName)
  if name == "" then
    ({ status := 400, body := .successErr false "Nombre no válido" }, db)
  else if f 0 then
    ({ status := 500, body := .successErr false "Error interno" }, db)
  else
    let db' : UsersDb :=
      { rows := db.rows ++ [{ id := db.nextId, name := name }], nextId := db.nextId + 1 }
    ({ status := 200, body := .successMsg true "Usuario agregado correctamente" }, db')

/-- PUT/PATCH /users handler of variant V1: resolve the id (400 when it
does not resolve), validate the trimmed name (400 when empty), run the
UPDATE; affectedRows = 1 re-reads the row and answers with it
(rows[0] falling back to an object carrying the id and the new name, as
in the source), any other count answers 404, and a throw from either
storage call answers 500. -/
def updateUserHandler (db : UsersDb) (f : Nat → Bool) (req : Request) : Response × UsersDb :=
  match getId req with
  | none => ({ status := 400, body := .successErr false "ID no proporcionado" }, db)
  | some id =>
    let name := jsTrim (jsOrEmpty req.bodyName)
    if name == "" then
      ({ status := 400, body := .successErr false "Nombre no válido" }, db)
    else if f 0 then
      ({ status := 500, body := .successErr false "Error interno" }, db)
    else
      let affected := usersAffected db.rows id
      let rows' := db.rows.map (fun r => if r.id == id then { r with name := name } else r)
      let db' : UsersDb := { db with rows := rows' }
      if affected == 1 then
        if f 1 then
          ({ status := 500, body := .successErr false "Error interno" }, db')
        else
          let sel := rows'.filter (fun r => r.id == id)
          ({ status := 200,
             body := .successUser true "Usuario actualizado correctamente"
               (sel.head?.getD { id := id, name := name }) }, db')
      else
        ({ status := 404, body := .successErr false "Usuario no encontrado" }, db')

/-- Route binding app.put of variant V1, registered to updateUserHandler. -/
def putUsersRoute : UsersDb → (Nat → Bool) → Request → Response × UsersDb :=
  updateUserHandler

/-- Route binding app.patch of variant V1, registered to the same
updateUserHandler function. -/
def patchUsersRoute : UsersDb → (Nat → Bool) → Request → Response × UsersDb :=
  updateUserHandler

/-- DELETE /users of variant V1: resolve the id (400 when it does not
resolve, before any storage call), run the DELETE; affectedRows = 1
answers the success acknowledgement, any other count answers 404, and a
throw answers 500. -/
def deleteUser (db : UsersDb) (f : Nat → Bool) (req : Request) : Response × UsersDb :=
  match getId req with
  | none => ({ status := 400, body := .successErr false "ID no proporcionado" }, db)
  | some id =>
    if f 0 then
      ({ status := 500, body := .successErr false "Error interno" }, db)
    else
      let affected := usersAffected db.rows id
      let db' : UsersDb := { db with rows := db.rows.filter (fun r => !(r.id == id)) }
      if affected == 1 then
        ({ status := 200, body := .successMsg true "Usuario eliminado correctamente" }, db')
      else
        ({ status := 404, body := .successErr false "Usuario no encontrado" }, db')

/-- Result rows of the probe query SELECT 1 AS ok when it succeeds. -/
def healthProbeRows : List Int := [1]

/-- GET /healthz of variant V1: on probe success answer 200 with ok set
to whether the first row of the probe equals 1; on a throw answer 503
with ok false. -/
def healthz (fail : Bool) : Response :=
  if fail then { status := 503, body := .okBody false }
  else { status := 200, body := .okBody (healthProbeRows.head? == some 1) }

/-- Number of resource rows matching a given id: the affectedRows count
of the DELETE statement of the resources API. -/
def resourcesAffected (rows : List ResourceRow) (id : Int) : Nat :=
  (rows.filter (fun r => r.id == id)).length

/-- GET /api/resources: rows ordered by created_at descending, generic
500 on storage failure. -/
def listResources (db : ResourcesDb) (fail : Bool) : Response :=
  if fail then { status := 500, body := .msg "Error al obtener los recursos" }
  else
    { status := 200,
      body := .resourceList (sortDescBy (fun a b => a.created_at ≥ b.created_at) db.rows) }

/-- POST /api/resources: reject with 400 when title or url is JS-falsy
(absent or the empty string, before trimming); otherwise INSERT the
trimmed values with the placeholder defaults, then re-read the created
row by insertId and answer 201 with it; a throw from either storage call
answers the generic 500. -/
def postResource (db : ResourcesDb) (f : Nat → Bool) (req : ResourceReq) : Response × ResourcesDb :=
  if jsFalsy req.title || jsFalsy req.url then
    ({ status := 400, body := .msg "El título y la URL son obligatorios" }, db)
  else if f 0 then
    ({ status := 500, body := .msg "Error al crear el recurso" }, db)
  else
    let row : ResourceRow :=
      { id := db.nextId,
        title := jsTrim (jsOrEmpty req.title),
        description := jsTrim (jsOrEmpty req.description),
        url := jsTrim (jsOrEmpty req.url),
        type := jsTrim (jsOr req.type "Otro"),
        platform := jsTrim (jsOr req.platform "Otro"),
        created_at := db.now }
    let db' : ResourcesDb := { rows := db.rows ++ [row], nextId := db.nextId + 1, now := db.now }
    if f 1 then
      ({ status := 500, body := .msg "Error al crear el recurso" }, db')
    else
      ({ status := 201, body := .resource row }, db')

/-- DELETE /api/resources/:id: parseInt the path parameter and answer 400
on NaN before any storage call; run the DELETE, answer 404 when
affectedRows = 0, otherwise the success acknowledgement; a throw answers
the generic 500. -/
def deleteResource (db : ResourcesDb) (f : Nat → Bool) (paramsId : String) : Response × ResourcesDb :=
  match jsParseInt paramsId with
  | none => ({ status := 400, body := .msg "ID inválido" }, db)
  | some id =>
    if f 0 then
      ({ status := 500, body := .msg "Error al eliminar el recurso" }, db)
    else
      let affected := resourcesAffected db.rows id
      let db' : ResourcesDb := { db with rows := db.rows.filter (fun r => !(r.id == id)) }
      if affected == 0 then
        ({ status := 404, body := .msg "Recurso no encontrado" }, db')
      else
        ({ status := 200, body := .msg "Recurso eliminado correctamente" }, db')

/-- Failure oracle of a request during which every storage call succeeds. -/
def noFail : Nat → Bool := fun _ => false

/-- C1: identifier resolution for the /users family checks the path
parameter, then the query parameter, then the body field, and the first
present value wins; in particular, with path id 5, query id 6 and body
id 7 simultaneously present the resolved identifier is 5. -/
theorem C1_id_precedence :
    (∀ (req : Request) (s : String), req.paramsId = some s → getId req = jsParseInt s) ∧
    (∀ (req : Request) (s : String), req.paramsId = none → req.queryId = some s →
      getId req = jsParseInt s) ∧
    (∀ (req : Request) (s : String), req.paramsId = none → req.queryId = none →
      req.bodyId = some s → getId req = jsParseInt s) ∧
    getId { paramsId := some "5", queryId := some "6", bodyId := some "7" } = some 5 := by
  refine ⟨?_, ?_, ?_, by decide⟩
  · intro req s h
    simp [getId, h]
  · intro req s h1 h2
    simp [getId, h1, h2]
  · intro req s h1 h2 h3
    simp [getId, h1, h2, h3]

/-- Witness for C1 at a request carrying the id in all three locations:
the path value is the one resolved. -/
theorem C1_id_precedence_witness :
    getId { paramsId := some "5", queryId := some "6", bodyId := some "7" } = jsParseInt "5" :=
  C1_id_precedence.1 { paramsId := some "5", queryId := some "6", bodyId := some "7" } "5" rfl

/-- C6: a User creation request whose name is absent or empty after
trimming is answered 400 with success false and a validation error
message, and the store is untouched. -/
theorem C6_post_users_validation :
    ∀ (db : UsersDb) (f : Nat → Bool) (req : Request),
      jsTrim (jsOrEmpty req.bodyName) = "" →
      (postUsers db f req).1 = { status := 400, body := .successErr false "Nombre no válido" } ∧
      (postUsers db f req).2 = db := by
  intro db f req h
  simp [postUsers, h]

/-- Witness for C6 at the whitespace-only name of the spec scenario. -/
theorem C6_post_users_validation_witness :
    (postUsers { rows := [], nextId := 1 } noFail { bodyName := some "  " }).1
      = { status := 400, body := .successErr false "Nombre no válido" } ∧
    (postUsers { rows := [], nextId := 1 } noFail { bodyName := some "  " }).2
      = { rows := [], nextId := 1 } :=
  C6_post_users_validation { rows := [], nextId := 1 } noFail { bodyName := some "  " } (by decide)

/-- C7: creating a Resource with only title A and url http://x yields a
stored and returned entity whose description is the empty string and
whose type and platform default to Otro. -/
theorem C7_resource_defaults :
    (postResource { rows := [], nextId := 1, now := 0 } noFail
        { title := some "A", url := some "http://x" }).1
      = { status := 201,
          body := .resource
            { id := 1, title := "A", description := "", url := "http://x",
              type := "Otro", platform := "Otro", created_at := 0 } } ∧
    (postResource { rows := [], nextId := 1, now := 0 } noFail
        { title := some "A", url := some "http://x" }).2.rows
      = [{ id := 1, title := "A", description := "", url := "http://x",
           type := "Otro", platform := "Otro", created_at := 0 }] := by
  decide

/-- C8: the health endpoint answers 200 with ok true when the probe query
succeeds and 503 with ok false when it fails. -/
theorem C8_healthz :
    healthz false = { status := 200, body := .okBody true } ∧
    healthz true = { status := 503, body := .okBody false } := by
  decide

/-- C9: the PUT and PATCH routes of the /users family are bound to the
same update handler, so their responses and storage effects agree on
every request, store state and failure oracle. -/
theorem C9_put_patch_same :
    ∀ (db : UsersDb) (f : Nat → Bool) (req : Request),
      putUsersRoute db f req = patchUsersRoute db f req :=
  fun _ _ _ => rfl

/-- C2 counterexample: a Resource creation request whose title is a
whitespace-only string (empty after trimming) is not rejected: the
response is 201, not a 400-class one, and a row is written to the store,
because the source validates with JS falsiness before trimming. -/
theorem C2_counterexample :
    jsTrim " " = "" ∧
    (postResource { rows := [], nextId := 1, now := 0 } noFail
        { title := some " ", url := some "http://x" }).1.status = 201 ∧
    (postResource { rows := [], nextId := 1, now := 0 } noFail
        { title := some " ", url := some "http://x" }).2.rows
      = [{ id := 1, title := "", description := "", url := "http://x",
           type := "Otro", platform := "Otro", created_at := 0 }] := by
  decide

/-- C2 amended: a Resource creation request whose title or url is absent
or the empty string (JS-falsy, checked before trimming) is answered with
a 400 response and the store is untouched; when both are truthy and the
insert succeeds, the inserted row carries the trimmed values with the
placeholder defaults. -/
theorem C2_resource_validation :
    (∀ (db : ResourcesDb) (f : Nat → Bool) (req : ResourceReq),
      jsFalsy req.title = true ∨ jsFalsy req.url = true →
      (postResource db f req).1
          = { status := 400, body := .msg "El título y la URL son obligatorios" } ∧
      (postResource db f req).2 = db) ∧
    (∀ (db : ResourcesDb) (f : Nat → Bool) (req : ResourceReq),
      jsFalsy req.title = false → jsFalsy req.url = false → f 0 = false →
      (postResource db f req).2.rows
        = db.rows ++
          [{ id := db.nextId,
             title := jsTrim (jsOrEmpty req.title),
             description := jsTrim (jsOrEmpty req.description),
             url := jsTrim (jsOrEmpty req.url),
             type := jsTrim (jsOr req.type "Otro"),
             platform := jsTrim (jsOr req.platform "Otro"),
             created_at := db.now }]) := by
  constructor
  · intro db f req h
    rcases h with h | h <;> simp [postResource, h]
  · intro db f req ht hu hf
    cases hf1 : f 1 <;> simp [postResource, ht, hu, hf, hf1]

/-- Witness for the amended C2: a request with no title is rejected with
the store untouched, and a valid request with padded fields inserts the
trimmed row. -/
theorem C2_resource_validation_witness :
    ((postResource { rows := [], nextId := 1, now := 0 } noFail { url := some "u" }).1
        = { status := 400, body := .msg "El título y la URL son obligatorios" } ∧
      (postResource { rows := [], nextId := 1, now := 0 } noFail { url := some "u" }).2
        = { rows := [], nextId := 1, now := 0 }) ∧
    (postResource { rows := [], nextId := 1, now := 0 } noFail
        { title := some " A ", url := some " http://x " }).2.rows
      = [{ id := 1, title := jsTrim " A ", description := "", url := jsTrim " http://x ",
           type := "Otro", platform := "Otro", created_at := 0 }] :=
  ⟨C2_resource_validation.1 { rows := [], nextId := 1, now := 0 } noFail
      { url := some "u" } (Or.inl (by decide)),
   C2_resource_validation.2 { rows := [], nextId := 1, now := 0 } noFail
      { title := some " A ", url := some " http://x " } (by decide) (by decide) rfl⟩

/-- C3 counterexample: in the basic users variant the list operation
answers a storage failure with a 500 whose error message embeds the
underlying datastore error detail after a fixed prefix, so the message
is neither generic nor free of the detail: two different details give
two different responses. -/
theorem C3_counterexample :
    (listUsersV0 { rows := [], nextId := 1 } (some "boom")).body
      = .err "Error de conexión: boom" ∧
    listUsersV0 { rows := [], nextId := 1 } (some "boom")
      ≠ listUsersV0 { rows := [], nextId := 1 } (some "zap") := by
  decide

/-- C3 amended: every storage failure in every modeled operation is
answered with a 5xx response carrying a fixed generic message (500 for
the CRUD handlers, 503 for the health probe), with one deviation: the
basic users variant answers a list-operation failure with a 500 whose
error message embeds the stringified datastore error detail. The
validation hypotheses on the create, update and delete conjuncts say the
request got past validation, so the failing storage call is reached. -/
theorem C3_storage_error_messages :
    (∀ db : ResourcesDb,
      listResources db true = { status := 500, body := .msg "Error al obtener los recursos" }) ∧
    (∀ db : UsersDb,
      listUsersV1 db true = { status := 500, body := .err "Error interno" }) ∧
    (∀ (db : UsersDb) (m : String),
      listUsersV0 db (some m)
        = { status := 500, body := .err ("Error de conexión: " ++ m) }) ∧
    (∀ (db : UsersDb) (f : Nat → Bool) (req : Request),
      jsTrim (jsOrEmpty req.bodyName) ≠ "" → f 0 = true →
      (postUsers db f req).1 = { status := 500, body := .successErr false "Error interno" }) ∧
    (∀ (db : UsersDb) (f : Nat → Bool) (req : Request) (id : Int),
      getId req = some id → jsTrim (jsOrEmpty req.bodyName) ≠ "" →
      (f 0 = true ∨ f 0 = false ∧ usersAffected db.rows id = 1 ∧ f 1 = true) →
      (updateUserHandler db f req).1
        = { status := 500, body := .successErr false "Error interno" }) ∧
    (∀ (db : UsersDb) (f : Nat → Bool) (req : Request) (id : Int),
      getId req = some id → f 0 = true →
      (deleteUser db f req).1 = { status := 500, body := .successErr false "Error interno" }) ∧
    (∀ (db : ResourcesDb) (f : Nat → Bool) (req : ResourceReq),
      jsFalsy req.title = false → jsFalsy req.url = false →
      (f 0 = true ∨ f 0 = false ∧ f 1 = true) →
      (postResource db f req).1 = { status := 500, body := .msg "Error al crear el recurso" }) ∧
    (∀ (db : ResourcesDb) (f : Nat → Bool) (pid : String) (id : Int),
      jsParseInt pid = some id → f 0 = true →
      (deleteResource db f pid).1 = { status := 500, body := .msg "Error al eliminar el recurso" }) ∧
    healthz true = { status := 503, body := .okBody false } := by
  refine ⟨fun _ => rfl, fun _ => rfl, fun _ _ => rfl, ?_, ?_, ?_, ?_, ?_, rfl⟩
  · intro db f req hn hf
    simp [postUsers, hn, hf]
  · intro db f req id hid hn hfs
    rcases hfs with hf0 | ⟨hf0, h1, hf1⟩
    · simp [updateUserHandler, hid, hn, hf0]
    · have h1' : (db.rows.filter (fun r => r.id == id)).length = 1 := h1
      simp [updateUserHandler, hid, hn, hf0, hf1, usersAffected, h1']
  · intro db f req id hid hf
    simp [deleteUser, hid, hf]
  · intro db f req ht hu hfs
    rcases hfs with hf0 | ⟨hf0, hf1⟩
    · simp [postResource, ht, hu, hf0]
    · simp [postResource, ht, hu, hf0, hf1]
  · intro db f pid id hid hf
    simp [deleteResource, hid, hf]

/-- Witness for the amended C3: concrete storage failures during user
create, user update (on both the first and the second storage call),
user delete, resource create and resource delete all yield the fixed
generic 5xx responses. -/
theorem C3_storage_error_messages_witness :
    (postUsers { rows := [], nextId := 1 } (fun _ => true) { bodyName := some "Ana" }).1
      = { status := 500, body := .successErr false "Error interno" } ∧
    (updateUserHandler { rows := [], nextId := 1 } (fun _ => true)
        { paramsId := some "5", bodyName := some "Ana" }).1
      = { status := 500, body := .successErr false "Error interno" } ∧
    (updateUserHandler { rows := [{ id := 5, name := "x" }], nextId := 6 } (fun n => n == 1)
        { paramsId := some "5", bodyName := some "Ana" }).1
      = { status := 500, body := .successErr false "Error interno" } ∧
    (deleteUser { rows := [], nextId := 1 } (fun _ => true) { paramsId := some "5" }).1
      = { status := 500, body := .successErr false "Error interno" } ∧
    (postResource { rows := [], nextId := 1, now := 0 } (fun _ => true)
        { title := some "A", url := some "u" }).1
      = { status := 500, body := .msg "Error al crear el recurso" } ∧
    (postResource { rows := [], nextId := 1, now := 0 } (fun n => n == 1)
        { title := some "A", url := some "u" }).1
      = { status := 500, body := .msg "Error al crear el recurso" } ∧
    (deleteResource { rows := [], nextId := 1, now := 0 } (fun _ => true) "3").1
      = { status := 500, body := .msg "Error al eliminar el recurso" } :=
  ⟨C3_storage_error_messages.2.2.2.1 { rows := [], nextId := 1 } (fun _ => true)
      { bodyName := some "Ana" } (by decide) rfl,
   C3_storage_error_messages.2.2.2.2.1 { rows := [], nextId := 1 } (fun _ => true)
      { paramsId := some "5", bodyName := some "Ana" } 5 (by decide) (by decide) (Or.inl rfl),
   C3_storage_error_messages.2.2.2.2.1 { rows := [{ id := 5, name := "x" }], nextId := 6 }
      (fun n => n == 1) { paramsId := some "5", bodyName := some "Ana" } 5 (by decide) (by decide)
      (Or.inr ⟨by decide, by decide, by decide⟩),
   C3_storage_error_messages.2.2.2.2.2.1 { rows := [], nextId := 1 } (fun _ => true)
      { paramsId := some "5" } 5 (by decide) rfl,
   C3_storage_error_messages.2.2.2.2.2.2.1 { rows := [], nextId := 1, now := 0 } (fun _ => true)
      { title := some "A", url := some "u" } (by decide) (by decide) (Or.inl rfl),
   C3_storage_error_messages.2.2.2.2.2.2.1 { rows := [], nextId := 1, now := 0 } (fun n => n == 1)
      { title := some "A", url := some "u" } (by decide) (by decide)
      (Or.inr ⟨by decide, by decide⟩),
   C3_storage_error_messages.2.2.2.2.2.2.2.1 { rows := [], nextId := 1, now := 0 } (fun _ => true)
      "3" 3 (by decide) rfl⟩

/-- Keeping the complement of a predicate that matches no element of a
list leaves the list unchanged. -/
theorem filter_not_of_count_zero {α : Type} (p : α → Bool) (l : List α)
    (h : (l.filter p).length = 0) : l.filter (fun a => !(p a)) = l := by
  rw [List.length_eq_zero] at h
  rw [List.filter_eq_self]
  intro a ha
  have hp := List.filter_eq_nil_iff.mp h a ha
  simp [hp]

/-- C5: a delete request whose identifier does not resolve is answered
400 with the store untouched; otherwise the delete runs and exactly one
affected row gives the success acknowledgement, zero affected rows give
404 (with the store unchanged), and a storage throw gives 500. Both the
users delete endpoint and the resources delete endpoint follow this
policy. -/
theorem C5_delete_result_policy :
    (∀ (db : UsersDb) (f : Nat → Bool) (req : Request),
      (getId req = none →
        (deleteUser db f req).1.status = 400 ∧ (deleteUser db f req).2 = db) ∧
      (∀ id : Int, getId req = some id →
        (f 0 = true → (deleteUser db f req).1.status = 500) ∧
        (f 0 = false → usersAffected db.rows id = 1 →
          (deleteUser db f req).1
            = { status := 200, body := .successMsg true "Usuario eliminado correctamente" }) ∧
        (f 0 = false → usersAffected db.rows id = 0 →
          (deleteUser db f req).1
            = { status := 404, body := .successErr false "Usuario no encontrado" } ∧
          (deleteUser db f req).2 = db))) ∧
    (∀ (db : ResourcesDb) (f : Nat → Bool) (pid : String),
      (jsParseInt pid = none →
        (deleteResource db f pid).1.status = 400 ∧ (deleteResource db f pid).2 = db) ∧
      (∀ id : Int, jsParseInt pid = some id →
        (f 0 = true → (deleteResource db f pid).1.status = 500) ∧
        (f 0 = false → resourcesAffected db.rows id = 1 →
          (deleteResource db f pid).1
            = { status := 200, body := .msg "Recurso eliminado correctamente" }) ∧
        (f 0 = false → resourcesAffected db.rows id = 0 →
          (deleteResource db f pid).1 = { status := 404, body := .msg "Recurso no encontrado" } ∧
          (deleteResource db f pid).2 = db))) := by
  constructor
  · intro db f req
    constructor
    · intro h
      simp [deleteUser, h]
    · intro id hid
      refine ⟨fun hf => ?_, fun hf h1 => ?_, fun hf h0 => ?_⟩
      · simp [deleteUser, hid, hf]
      · simp [deleteUser, hid, hf, h1]
      · have h0' : (db.rows.filter (fun r => r.id == id)).length = 0 := h0
        have hrows := filter_not_of_count_zero (fun r => r.id == id) db.rows h0'
        simp [deleteUser, hid, hf, usersAffected, hrows, h0']
  · intro db f pid
    constructor
    · intro h
      simp [deleteResource, h]
    · intro id hid
      refine ⟨fun hf => ?_, fun hf h1 => ?_, fun hf h0 => ?_⟩
      · simp [deleteResource, hid, hf]
      · simp [deleteResource, hid, hf, h1]
      · have h0' : (db.rows.filter (fun r => r.id == id)).length = 0 := h0
        have hrows := filter_not_of_count_zero (fun r => r.id == id) db.rows h0'
        simp [deleteResource, hid, hf, resourcesAffected, hrows, h0']

/-- Witness for C5: exercises the unresolvable-id rejection, the
successful delete, the 404 on an absent id and the storage-failure 500
on concrete stores. -/
theorem C5_delete_result_policy_witness :
    ((deleteUser { rows := [], nextId := 1 } noFail { bodyId := some "x" }).1.status = 400 ∧
      (deleteUser { rows := [], nextId := 1 } noFail { bodyId := some "x" }).2
        = { rows := [], nextId := 1 }) ∧
    (deleteUser { rows := [{ id := 7, name := "a" }], nextId := 8 } noFail
        { paramsId := some "7" }).1
      = { status := 200, body := .successMsg true "Usuario eliminado correctamente" } ∧
    ((deleteUser { rows := [], nextId := 1 } noFail { paramsId := some "999" }).1
      = { status := 404, body := .successErr false "Usuario no encontrado" } ∧
      (deleteUser { rows := [], nextId := 1 } noFail { paramsId := some "999" }).2
        = { rows := [], nextId := 1 }) ∧
    (deleteResource { rows := [], nextId := 1, now := 0 } (fun _ => true) "3").1.status = 500 :=
  ⟨(C5_delete_result_policy.1 { rows := [], nextId := 1 } noFail { bodyId := some "x" }).1
      (by decide),
   ((C5_delete_result_policy.1 { rows := [{ id := 7, name := "a" }], nextId := 8 } noFail
      { paramsId := some "7" }).2 7 (by decide)).2.1 rfl (by decide),
   ((C5_delete_result_policy.1 { rows := [], nextId := 1 } noFail
      { paramsId := some "999" }).2 999 (by decide)).2.2 rfl (by decide),
   ((C5_delete_result_policy.2 { rows := [], nextId := 1, now := 0 } (fun _ => true) "3").2 3
      (by decide)).1 rfl⟩

/-- Rewriting the name of every row matching an id and then selecting by
that id yields one renamed row per original match. -/
theorem filter_map_update (rows : List UserRow) (id : Int) (n : String) :
    (rows.map (fun r => if r.id == id then { r with name := n } else r)).filter
        (fun r => r.id == id)
      = List.replicate (rows.filter (fun r => r.id == id)).length
          ({ id := id, name := n } : UserRow) := by
  induction rows with
  | nil => rfl
  | cons a l ih =>
    by_cases h : a.id = id
    · simp only [beq_iff_eq] at ih
      simp [List.filter_cons, h, ih, List.replicate_succ, -List.filter_head?]
    · simp only [beq_iff_eq] at ih
      simp [List.filter_cons, h, ih, -List.filter_head?]

/-- Selecting by id after the update of filter_map_update, on a table
holding exactly one row for that id, re-reads the renamed row. -/
theorem updated_sel_head (rows : List UserRow) (id : Int) (n : String)
    (h1 : (rows.filter (fun r => r.id == id)).length = 1) :
    ((rows.map (fun r => if r.id == id then { r with name := n } else r)).filter
        (fun r => r.id == id)).head?.getD { id := id, name := n }
      = ({ id := id, name := n } : UserRow) := by
  rw [filter_map_update, h1]
  rfl

/-- C4: a User update request with a resolved identifier and a valid
name re-reads and returns the updated entity with success when the
update affects exactly one row, answers 404 when it affects zero rows,
and answers 500 when either storage call throws. -/
theorem C4_update_result_policy :
    ∀ (db : UsersDb) (f : Nat → Bool) (req : Request) (id : Int),
      getId req = some id →
      jsTrim (jsOrEmpty req.bodyName) ≠ "" →
      (f 0 = false → usersAffected db.rows id = 1 → f 1 = false →
        (updateUserHandler db f req).1
          = { status := 200,
              body := .successUser true "Usuario actualizado correctamente"
                { id := id, name := jsTrim (jsOrEmpty req.bodyName) } } ∧
        (updateUserHandler db f req).2.rows
          = db.rows.map
              (fun r =>
                if r.id == id then { r with name := jsTrim (jsOrEmpty req.bodyName) } else r)) ∧
      (f 0 = false → usersAffected db.rows id = 0 →
        (updateUserHandler db f req).1
          = { status := 404, body := .successErr false "Usuario no encontrado" }) ∧
      ((f 0 = true ∨ f 0 = false ∧ usersAffected db.rows id = 1 ∧ f 1 = true) →
        (updateUserHandler db f req).1.status = 500) := by
  intro db f req id hid hname
  refine ⟨fun hf0 h1 hf1 => ?_, fun hf0 h0 => ?_, fun hf => ?_⟩
  · have hhead := updated_sel_head db.rows id (jsTrim (jsOrEmpty req.bodyName)) h1
    have h1' : (db.rows.filter (fun r => r.id == id)).length = 1 := h1
    simp only [beq_iff_eq] at hhead
    simp [updateUserHandler, hid, hname, hf0, hf1, usersAffected, h1', hhead,
      -List.filter_head?]
  · have h0' : (db.rows.filter (fun r => r.id == id)).length = 0 := h0
    simp [updateUserHandler, hid, hname, hf0, usersAffected, h0']
  · rcases hf with hf0 | ⟨hf0, h1, hf1⟩
    · simp [updateUserHandler, hid, hname, hf0]
    · have h1' : (db.rows.filter (fun r => r.id == id)).length = 1 := h1
      simp [updateUserHandler, hid, hname, hf0, hf1, usersAffected, h1']

/-- Witness for C4: on a one-row store the update succeeds and re-reads
the renamed row, on an empty store it answers 404, and under a failing
oracle it answers 500. -/
theorem C4_update_result_policy_witness :
    ((updateUserHandler { rows := [{ id := 5, name := "x" }], nextId := 6 } noFail
        { paramsId := some "5", bodyName := some " Ana " }).1
      = { status := 200,
          body := .successUser true "Usuario actualizado correctamente"
            { id := 5, name := jsTrim (jsOrEmpty (some " Ana ")) } } ∧
      (updateUserHandler { rows := [{ id := 5, name := "x" }], nextId := 6 } noFail
        { paramsId := some "5", bodyName := some " Ana " }).2.rows
      = [{ id := 5, name := "x" }].map
          (fun r =>
            if r.id == (5 : Int) then { r with name := jsTrim (jsOrEmpty (some " Ana ")) }
            else r)) ∧
    (updateUserHandler { rows := [], nextId := 1 } noFail
        { paramsId := some "5", bodyName := some "Ana" }).1
      = { status := 404, body := .successErr false "Usuario no encontrado" } ∧
    (updateUserHandler { rows := [], nextId := 1 } (fun _ => true)
        { paramsId := some "5", bodyName := some "Ana" }).1.status = 500 :=
  ⟨(C4_update_result_policy { rows := [{ id := 5, name := "x" }], nextId := 6 } noFail
      { paramsId := some "5", bodyName := some " Ana " } 5 (by decide) (by decide)).1
      rfl (by decide) rfl,
   ((C4_update_result_policy { rows := [], nextId := 1 } noFail
      { paramsId := some "5", bodyName := some "Ana" } 5 (by decide) (by decide)).2.1
      rfl (by decide)),
   ((C4_update_result_policy { rows := [], nextId := 1 } (fun _ => true)
      { paramsId := some "5", bodyName := some "Ana" } 5 (by decide) (by decide)).2.2
      (Or.inl rfl))⟩

/-- Decimal digit characters are not whitespace. -/
theorem isDigit_not_ws (c : Char) (h : c.isDigit = true) : c.isWhitespace = false := by
  by_contra hw
  rw [Bool.not_eq_false] at hw
  simp only [Char.isWhitespace, Bool.or_eq_true, decide_eq_true_eq] at hw
  rcases hw with ((h1 | h1) | h1) | h1 <;> subst h1 <;> exact absurd h (by decide)

/-- Decimal digit characters are not the plus sign. -/
theorem isDigit_ne_plus (c : Char) (h : c.isDigit = true) : ¬(c = '+') := by
  intro hc
  subst hc
  exact absurd h (by decide)

/-- Decimal digit characters are not the minus sign. -/
theorem isDigit_ne_minus (c : Char) (h : c.isDigit = true) : ¬(c = '-') := by
  intro hc
  subst hc
  exact absurd h (by decide)

/-- Taking the digit run of a digit block followed by a non-digit tail
returns exactly the block. -/
theorem takeWhile_digits_append (ds t : List Char)
    (hd : ∀ c ∈ ds, c.isDigit = true)
    (ht : ∀ c, t.head? = some c → c.isDigit = false) :
    (ds ++ t).takeWhile (fun c => c.isDigit) = ds := by
  induction ds with
  | nil =>
    cases t with
    | nil => rfl
    | cons a r => simp [List.takeWhile_cons, ht a rfl]
  | cons a l ih =>
    have ha : a.isDigit = true := hd a (List.mem_cons_self a l)
    have hl : ∀ c ∈ l, c.isDigit = true := fun c hc => hd c (List.mem_cons_of_mem a hc)
    simp [List.takeWhile_cons, ha, ih hl]

/-- C10: an identifier string made of leading decimal digits followed by
non-numeric characters is not rejected by identifier resolution: it
resolves to the integer formed by the leading digits, so the delete
handler reaches storage and removes that entity instead of answering
400; in particular the strings 7abc and 7.9 both resolve to 7. -/
theorem C10_leading_digits :
    (∀ ds t : List Char,
      ds ≠ [] →
      (∀ c ∈ ds, c.isDigit = true) →
      (∀ c, t.head? = some c → c.isDigit = false) →
      jsParseInt (String.mk (ds ++ t)) = some ((digitsVal ds : Int)) ∧
      (∀ req : Request, req.paramsId = some (String.mk (ds ++ t)) →
        getId req = some ((digitsVal ds : Int))) ∧
      (∀ (db : UsersDb) (f : Nat → Bool) (req : Request),
        req.paramsId = some (String.mk (ds ++ t)) →
        (deleteUser db f req).1.status ≠ 400 ∧
        (f 0 = false →
          (deleteUser db f req).2.rows
            = db.rows.filter (fun r => !(r.id == (digitsVal ds : Int)))))) ∧
    jsParseInt "7abc" = some 7 ∧ jsParseInt "7.9" = some 7 := by
  refine ⟨?_, by decide, by decide⟩
  intro ds t hne hd ht
  obtain ⟨d, ds2, rfl⟩ : ∃ d ds2, ds = d :: ds2 := by
    cases ds with
    | nil => exact absurd rfl hne
    | cons d ds2 => exact ⟨d, ds2, rfl⟩
  have hdd : d.isDigit = true := hd d (List.mem_cons_self d ds2)
  have hparse : jsParseInt (String.mk ((d :: ds2) ++ t))
      = some ((digitsVal (d :: ds2) : Int)) := by
    show jsParseInt ⟨(d :: ds2) ++ t⟩ = _
    unfold jsParseInt
    have hdrop : ((d :: ds2) ++ t).dropWhile (fun c => c.isWhitespace) = (d :: ds2) ++ t := by
      simp [List.dropWhile_cons, isDigit_not_ws d hdd]
    have hsign : stripSign ((d :: ds2) ++ t) = (1, (d :: ds2) ++ t) := by
      simp [stripSign, isDigit_ne_plus d hdd, isDigit_ne_minus d hdd]
    have htake := takeWhile_digits_append (d :: ds2) t hd ht
    simp only [hdrop, hsign, htake]
    simp
  have hparse' := hparse
  simp only [List.cons_append] at hparse'
  refine ⟨hparse, ?_, ?_⟩
  · intro req h
    simp [getId, h, hparse']
  · intro db f req h
    have hgid : getId req = some ((digitsVal (d :: ds2) : Int)) := by
      simp [getId, h, hparse']
    constructor
    · simp only [deleteUser, hgid]
      cases hf : f 0
      · by_cases h1 : usersAffected db.rows (digitsVal (d :: ds2)) == 1
        · simp [h1]
        · simp [h1]
      · simp
    · intro hf
      simp only [deleteUser, hgid, hf]
      by_cases h1 : usersAffected db.rows (digitsVal (d :: ds2)) == 1
      · simp [h1]
      · simp [h1]

/-- Witness for C10 at the digit block 7 followed by the tail abc: the
identifier resolves to 7 and the delete removes the row with id 7. -/
theorem C10_leading_digits_witness :
    jsParseInt (String.mk (['7'] ++ ['a', 'b', 'c'])) = some ((digitsVal ['7'] : Int)) ∧
    (∀ req : Request, req.paramsId = some (String.mk (['7'] ++ ['a', 'b', 'c'])) →
      getId req = some ((digitsVal ['7'] : Int))) ∧
    (∀ (db : UsersDb) (f : Nat → Bool) (req : Request),
      req.paramsId = some (String.mk (['7'] ++ ['a', 'b', 'c'])) →
      (deleteUser db f req).1.status ≠ 400 ∧
      (f 0 = false →
        (deleteUser db f req).2.rows
          = db.rows.filter (fun r => !(r.id == (digitsVal ['7'] : Int))))) :=
  C10_leading_digits.1 ['7'] ['a', 'b', 'c'] (by decide)
    (by intro c hc; simp at hc; subst hc; decide)
    (by intro c hc; simp at hc; subst hc; decide)

end Escuela
